import Mathlib

/-!
Shallow embedding of the yamlforge persistence core (Go) in Lean 4.

Embedded source files:
* internal/parser (types.go and the config validation in part_000):
  field types, models, schema, config validation.
* internal/database (part_006 SQLiteDB, part_007 base DB):
  query compiler (buildWhereClause, buildSelectQuery, Count, quote),
  DDL synthesis (createTable, createIndexes, CreateSchema), CRUD execution.
* internal/validation (part_008): Validator.ValidateCreate,
  Validator.ValidateUpdate, Validator.validateField and its per-type helpers.

Go dynamic values (the interface type any) are modelled by the inductive
type Value below; Go float64 numbers are modelled as exact rationals, since
the embedded code only ever compares them.  Go maps are modelled as
association lists: a concrete list fixes one iteration order, and theorems
quantify over the list, hence over every possible iteration order.
-/

set_option autoImplicit false

namespace Yamlforge

/-- Dynamically typed scalar exchanged between the persistence engine and its
callers (the Go interface type any as it occurs in payloads, filters and
rows): null, booleans, integers (Go int and int64), float64 numbers
(modelled as exact rationals, only ever compared), strings, and lists. -/
inductive Value where
  | null : Value
  | bool (b : Bool) : Value
  | int (n : Int) : Value
  | float (q : ℚ) : Value
  | str (s : String) : Value
  | list (vs : List Value) : Value

/-- Closed enumeration of semantic field types (parser/types.go FieldType). -/
inductive FieldType where
  | text | number | boolean | datetime | date | time | id | email
  | password | phone | url | slug | enum | color | file | image
  | markdown | json | array | relation | currency | location | ip
  | uuid | duration
deriving DecidableEq

/-- One column descriptor (parser/types.go Field). -/
structure Field where
  name : String
  type : FieldType
  primary : Bool
  required : Bool
  unique : Bool
  min : Option Int
  max : Option Int
  pattern : String
  options : List String
  default : Option Value
  autoNow : Bool
  autoNowAdd : Bool
  nullable : Bool
  index : Bool
  relatedTo : String
  onDelete : String
  arrayType : String

/-- List-view projection of a model (parser/types.go UIList). -/
structure UIList where
  columns : List String
  sortable : List String
  searchable : List String

/-- Form projection of a model (parser/types.go UIForm). -/
structure UIForm where
  fields : List String

/-- UI projections of a model (parser/types.go UIModel). -/
structure UIModel where
  list : UIList
  form : UIForm

/-- Named collection of fields (parser/types.go Model).  The permission
descriptor is omitted: none of the embedded functions read it. -/
structure Model where
  name : String
  fields : List Field
  ui : UIModel

/-- Mapping from model name to model (parser/types.go Schema).  The Go map
is modelled as an association list. -/
structure Schema where
  models : List (String × Model)

/-- Association-list lookup, modelling a Go map read m[k]. -/
def lookupKey {α : Type} : List (String × α) → String → Option α
  | [], _ => none
  | (k, v) :: rest, key => if k = key then some v else lookupKey rest key

/-- Schema.GetModel (parser part_000). -/
def Schema.GetModel (s : Schema) (name : String) : Option Model :=
  lookupKey s.models name

/-- One structured filter (parser/types.go Filter). -/
structure Filter where
  field : String
  operator : String
  value : Value

/-- One sort specification (parser/types.go SortField). -/
structure SortField where
  field : String
  desc : Bool

/-- Structured query request (parser/types.go QueryParams). -/
structure QueryParams where
  page : Int
  pageSize : Int
  sort : List SortField
  filters : List Filter
  search : String

/-- Structured validation error (parser/types.go ValidationError). -/
structure VError where
  field : String
  message : String
deriving DecidableEq

/-- DB.quote (database part_007): identifier quoting keyed by the database
type string.  For sqlite it wraps the name in double quotes with no
escaping; for any other database type it returns the name unchanged. -/
def DBquote (dbType : String) (name : String) : String :=
  if dbType = "sqlite" then "\"" ++ name ++ "\"" else name

/-- Identifier quoting as performed by SQLiteDB, whose dbType is sqlite. -/
def quoteS (name : String) : String :=
  DBquote "sqlite" name

/-- Rendering of a dynamic value by fmt.Sprint as used for the like
pattern.  Scalars print their usual Go forms; the list case approximates
the Go bracketed form (no claim depends on it). -/
def sprintValue : Value → String
  | .null => "<nil>"
  | .bool b => if b then "true" else "false"
  | .int n => toString n
  | .float q => toString q
  | .str s => s
  | .list vs => "[" ++ String.intercalate " " (vs.map fun v =>
      match v with
      | .str s => s
      | .int n => toString n
      | .bool b => if b then "true" else "false"
      | .float q => toString q
      | _ => "") ++ "]"

/-- SQLiteDB.buildWhereClause (database part_006, lines 350 to 369; the base
DB version in part_007 is textually identical).  An empty operator defaults
to equality; the like operator wraps the printed value in percent signs;
the in operator emits one placeholder per element of a list value and
passes the WHOLE list as a single argument (see the C5 analysis); any other
operator is interpolated verbatim between the quoted field and a
placeholder.  The none result models the Go type assertion
filter.Value.([]any) panicking when the in operator is given a non-list
value; no other branch can fail. -/
def buildWhereClause (f : Filter) : Option (String × Value) :=
  let operator := if f.operator = "" then "=" else f.operator
  match operator with
  | "like" =>
      some (quoteS f.field ++ " LIKE ?", .str ("%" ++ sprintValue f.value ++ "%"))
  | "in" =>
      match f.value with
      | .list vs =>
          some (quoteS f.field ++ " IN (" ++
            String.intercalate "," (vs.map fun _ => "?") ++ ")", .list vs)
      | _ => none
  | op => some (quoteS f.field ++ " " ++ op ++ " ?", f.value)

/-- WHERE-clause accumulation shared verbatim by buildSelectQuery and Count:
one clause per filter, one argument appended per filter. -/
def buildWhereParts (filters : List Filter) : Option (List String × List Value) :=
  match filters with
  | [] => some ([], [])
  | f :: rest => do
      let (clause, arg) ← buildWhereClause f
      let (clauses, args) ← buildWhereParts rest
      pure (clause :: clauses, arg :: args)

/-- SQLiteDB.buildSelectQuery (database part_006, lines 296 to 348).
Clause order: SELECT, WHERE (filters ANDed), free-text search (ANDed with
the filters when any exist), ORDER BY (defaulting to id descending), and
LIMIT/OFFSET only when pageSize is positive.  The none result propagates a
panic of the in-operator type assertion. -/
def buildSelectQuery (schema : Option Schema) (model : String)
    (params : QueryParams) : Option (String × List Value) := do
  let (whereClauses, whereArgs) ← buildWhereParts params.filters
  let parts0 := ["SELECT * FROM " ++ quoteS model]
  let parts1 := if params.filters.length > 0 then
      parts0 ++ ["WHERE " ++ String.intercalate " AND " whereClauses]
    else parts0
  let searchable :=
    match schema with
    | none => []
    | some s =>
        match s.GetModel model with
        | some m => m.ui.list.searchable
        | none => []
  let searchActive := params.search ≠ "" ∧ searchable.length > 0
  let searchClauses := searchable.map fun fieldName => quoteS fieldName ++ " LIKE ?"
  let searchArgs : List Value := searchable.map fun _ =>
    .str ("%" ++ params.search ++ "%")
  let parts2 := if searchActive then
      if params.filters.length > 0 then
        parts1 ++ ["AND (" ++ String.intercalate " OR " searchClauses ++ ")"]
      else
        parts1 ++ ["WHERE " ++ String.intercalate " OR " searchClauses]
    else parts1
  let args := if searchActive then whereArgs ++ searchArgs else whereArgs
  let parts3 := if params.sort.length > 0 then
      parts2 ++ ["ORDER BY " ++ String.intercalate ", " (params.sort.map fun s =>
        quoteS s.field ++ " " ++ (if s.desc then "DESC" else "ASC"))]
    else
      parts2 ++ ["ORDER BY " ++ quoteS "id" ++ " DESC"]
  let parts4 := if params.pageSize > 0 then
      parts3 ++ ["LIMIT " ++ toString params.pageSize ++ " OFFSET " ++
        toString ((params.page - 1) * params.pageSize)]
    else parts3
  pure (String.intercalate " " parts4, args)

/-- Statement construction inside SQLiteDB.Count (database part_006, lines
270 to 294): the table name is lowercased, then the same WHERE-clause
builder as buildSelectQuery is run over the filters. -/
def buildCountQuery (model : String) (filters : List Filter) :
    Option (String × List Value) := do
  let (whereClauses, whereArgs) ← buildWhereParts filters
  let parts0 := ["SELECT COUNT(*) FROM " ++ quoteS model.toLower]
  let parts1 := if filters.length > 0 then
      parts0 ++ ["WHERE " ++ String.intercalate " AND " whereClauses]
    else parts0
  pure (String.intercalate " " parts1, whereArgs)

/-- Number of placeholders in a SQL text. -/
def countPlaceholders (sql : String) : Nat :=
  sql.data.count '?'

/-!
Model of the SQLite engine evaluating the compiled statements.  The engine
is external to the repository; the definitions below give executable
semantics to the clause shapes the compiler emits.  Both the COUNT and the
SELECT statement are interpreted by the same functions, which is exactly
the situation in SQLite: the WHERE text and the bound arguments produced
for the two statements are identical.
-/

/-- One stored row: a mapping from column name to value. -/
abbrev Row : Type := List (String × Value)

/-- Reading a column of a row; a column the row does not carry reads as
NULL (the compiled statements only name schema columns, so this case does
not arise for well-formed tables). -/
def rowGet (r : Row) (col : String) : Value :=
  (lookupKey r col).getD .null

/-- Numeric reading of a stored value: integers and float64 numbers are
numbers; booleans are stored by SQLite as 0 or 1. -/
def numOf : Value → Option ℚ
  | .int n => some (n : ℚ)
  | .float q => some q
  | .bool b => some (if b then 1 else 0)
  | _ => none

/-- SQLite equality between a column value and a bound argument: NULL
compares false against everything, numbers compare numerically, strings
compare as strings, and values of different storage classes are unequal. -/
def sqlEq (a b : Value) : Bool :=
  match a, b with
  | .null, _ => false
  | _, .null => false
  | a, b =>
      match numOf a, numOf b with
      | some x, some y => decide (x = y)
      | some _, none => false
      | none, some _ => false
      | none, none =>
          match a, b with
          | .str s, .str t => decide (s = t)
          | _, _ => false

/-- SQLite ordering between values: NULL orders false under the comparison
operators, numbers order numerically, strings lexicographically, and a
number orders before a string (the SQLite storage-class ordering). -/
def sqlLt (a b : Value) : Bool :=
  match a, b with
  | .null, _ => false
  | _, .null => false
  | a, b =>
      match numOf a, numOf b with
      | some x, some y => decide (x < y)
      | some _, none => true
      | none, some _ => false
      | none, none =>
          match a, b with
          | .str s, .str t => decide (s < t)
          | _, _ => false

/-- Substring test on character lists. -/
def containsChars (needle : List Char) : List Char → Bool
  | [] => needle.isEmpty
  | c :: rest => needle.isPrefixOf (c :: rest) || containsChars needle rest

/-- Model of the SQLite LIKE with the percent-wrapped patterns the compiler
emits: the column text contains the printed value.  SQLite LIKE is
ASCII-case-insensitive; this model is case-sensitive, a simplification
shared by every statement interpreted here, so the agreement results do
not depend on it. -/
def likeContains (hay needle : String) : Bool :=
  containsChars needle.data hay.data

/-- Evaluation of one LIKE clause over a column: NULL never matches. -/
def likeCol (r : Row) (col : String) (needle : String) : Bool :=
  match rowGet r col with
  | .null => false
  | v => likeContains (sprintValue v) needle

/-- Row predicate denoted by one compiled filter clause, following the case
split of buildWhereClause.  The in operator is none: the builder emits one
placeholder per element but binds the whole list as a single argument, so
the statement never executes (see the C5 result).  Operators outside the
emitted comparison set are interpolated verbatim into the SQL text and are
modelled as a failed prepare; the COUNT/SELECT agreement results are
insensitive to this choice because both statements carry the identical
clause. -/
def filterSem (f : Filter) : Option (Row → Bool) :=
  let operator := if f.operator = "" then "=" else f.operator
  match operator with
  | "like" => some (fun r => likeCol r f.field (sprintValue f.value))
  | "in" => none
  | "=" => some (fun r => sqlEq (rowGet r f.field) f.value)
  | ">" => some (fun r => sqlLt f.value (rowGet r f.field))
  | "<" => some (fun r => sqlLt (rowGet r f.field) f.value)
  | _ => none

/-- Conjunction of all filter clauses (the builder joins them with AND). -/
def whereSem (filters : List Filter) : Option (Row → Bool) :=
  (filters.mapM filterSem).map fun preds => fun r => preds.all fun p => p r

/-- SQLiteDB.Count (database part_006, lines 270 to 294) interpreted over
the rows of the addressed table: the scanned COUNT(*) is the number of
rows matching every filter.  Count lowercases the table name before
quoting it; SQLite resolves table identifiers case-insensitively, so the
lowercased name addresses the same table as the SELECT side. -/
def evalCount (table : List Row) (filters : List Filter) : Option Nat :=
  (whereSem filters).map fun p => (table.filter p).length

/-- Default ORDER BY emitted when no sort fields are given: id DESC. -/
def defaultSort : List SortField := [⟨"id", true⟩]

/-- Comparator denoted by an ORDER BY clause list. -/
def rowLe (keys : List SortField) (a b : Row) : Bool :=
  match keys with
  | [] => true
  | k :: rest =>
      if sqlLt (rowGet a k.field) (rowGet b k.field) then !k.desc
      else if sqlLt (rowGet b k.field) (rowGet a k.field) then k.desc
      else rowLe rest a b

/-- Sorting pass of the SELECT statement. -/
def sortRows (sorts : List SortField) (rows : List Row) : List Row :=
  rows.mergeSort (rowLe (if sorts.isEmpty then defaultSort else sorts))

/-- SQLiteDB.Query via buildSelectQuery (database part_006, lines 210 to
233 and 296 to 348) interpreted over the rows of the addressed table:
filters are ANDed, the search group is ANDed on top when a search term and
searchable fields exist, rows are ordered, and LIMIT/OFFSET applies only
when pageSize is positive. -/
def evalQuery (schema : Option Schema) (model : String) (table : List Row)
    (params : QueryParams) : Option (List Row) := do
  let p ← whereSem params.filters
  let rows1 := table.filter p
  let searchable :=
    match schema with
    | none => []
    | some s =>
        match s.GetModel model with
        | some m => m.ui.list.searchable
        | none => []
  let rows2 := if params.search ≠ "" ∧ searchable.length > 0 then
      rows1.filter fun r => searchable.any fun fn => likeCol r fn params.search
    else rows1
  let rows3 := sortRows params.sort rows2
  pure (if params.pageSize > 0 then
      (rows3.drop ((params.page - 1) * params.pageSize).toNat).take
        params.pageSize.toNat
    else rows3)

/-- Replacement of one column value inside a row (the engine applying one
SET clause; an absent column is appended). -/
def setCol : Row → String → Value → Row
  | [], k, v => [(k, v)]
  | (k0, v0) :: rest, k, v =>
      if k0 = k then (k0, v) :: rest else (k0, v0) :: setCol rest k v

/-- The engine applying every SET clause of an UPDATE to one row. -/
def applySet (data : List (String × Value)) (r : Row) : Row :=
  data.foldl (fun acc kv => setCol acc kv.1 kv.2) r

/-- The engine executing UPDATE model SET ... WHERE id = ?: the new table
and the affected-row count. -/
def execUpdate (table : List Row) (idv : Value) (data : List (String × Value)) :
    List Row × Nat :=
  (table.map fun r => if sqlEq (rowGet r "id") idv then applySet data r else r,
   (table.filter fun r => sqlEq (rowGet r "id") idv).length)

/-- SQLiteDB.Update (database part_006, lines 256 to 261): the statement
result is bound as the blank identifier, so the affected-row count is
discarded and only a driver error could be surfaced; an UPDATE matching
zero rows is a successful statement. -/
def goUpdate (table : List Row) (idv : Value) (data : List (String × Value)) :
    Except String (List Row) :=
  let res := execUpdate table idv data
  .ok res.1

/-- The engine executing DELETE FROM model WHERE id = ?. -/
def execDelete (table : List Row) (idv : Value) : List Row × Nat :=
  (table.filter fun r => !sqlEq (rowGet r "id") idv,
   (table.filter fun r => sqlEq (rowGet r "id") idv).length)

/-- SQLiteDB.Delete (database part_006, lines 263 to 268): as with Update,
the affected-row count is discarded. -/
def goDelete (table : List Row) (idv : Value) : Except String (List Row) :=
  let res := execDelete table idv
  .ok res.1

/-- SQLiteDB.Get via executeQueryRow (database part_006, lines 235 to 238
and 400 to 412): when the SELECT by id yields no row, the distinguished
sql.ErrNoRows error is returned. -/
def goGet (table : List Row) (idv : Value) : Except String Row :=
  match table.filter (fun r => sqlEq (rowGet r "id") idv) with
  | [] => .error "sql: no rows in result set"
  | r :: _ => .ok r

/-!
Validation engine (internal/validation, part_008).  Go regular-expression
matching (regexp.MatchString) is an external library; it is abstracted as
an engine parameter so that every theorem below holds for every possible
matcher.  A none result models a pattern compilation error.
-/

/-- Abstract regular-expression matcher standing for regexp.MatchString:
runMatch pat s is none when the pattern does not compile, otherwise some of
the match result. -/
structure RegexEngine where
  runMatch : String → String → Option Bool

/-- Payload of a create or update request: the Go map is modelled as an
association list, quantified over to cover every iteration order. -/
abbrev Payload : Type := List (String × Value)

/-- Email pattern used by Validator.validateEmail. -/
def emailPattern : String :=
  "^[a-zA-Z0-9._%+-]+@[a-zA-Z0-9.-]+\\.[a-zA-Z]\x7b2,\x7d$"

/-- URL pattern used by Validator.validateURL. -/
def urlPattern : String :=
  "^https?://[^\\s/$.?#].[^\\s]*$"

/-- Minimum-length check of Validator.validateText; Go len counts bytes,
matched here by utf8ByteSize. -/
def textMinErr (f : Field) (s : String) : Option VError :=
  match f.min with
  | some mn =>
      if (s.utf8ByteSize : Int) < mn then
        some ⟨f.name, "must be at least " ++ toString mn ++ " characters"⟩
      else none
  | none => none

/-- Maximum-length check of Validator.validateText. -/
def textMaxErr (f : Field) (s : String) : Option VError :=
  match f.max with
  | some mx =>
      if (s.utf8ByteSize : Int) > mx then
        some ⟨f.name, "must be at most " ++ toString mx ++ " characters"⟩
      else none
  | none => none

/-- Pattern check of Validator.validateText: a non-compiling pattern is an
invalid pattern error, a non-match a pattern error. -/
def textPatternErr (re : RegexEngine) (f : Field) (s : String) : Option VError :=
  if f.pattern ≠ "" then
    match re.runMatch f.pattern s with
    | none => some ⟨f.name, "invalid pattern"⟩
    | some true => none
    | some false => some ⟨f.name, "does not match required pattern"⟩
  else none

/-- Validator.validateText (validation part_008, lines 115 to 155). -/
def validateText (re : RegexEngine) (f : Field) (v : Value) : Option VError :=
  match v with
  | .str s =>
      (textMinErr f s).orElse fun _ =>
        (textMaxErr f s).orElse fun _ => textPatternErr re f s
  | _ => some ⟨f.name, "must be a string"⟩

/-- Numeric payload values accepted by Validator.validateNumber: float64,
int and int64 scalars. -/
def payloadNum : Value → Option ℚ
  | .int n => some (n : ℚ)
  | .float q => some q
  | _ => none

/-- Validator.validateNumber (validation part_008, lines 157 to 189). -/
def validateNumber (f : Field) (v : Value) : Option VError :=
  match payloadNum v with
  | none => some ⟨f.name, "must be a number"⟩
  | some num =>
      match f.min with
      | some mn =>
          if num < (mn : ℚ) then
            some ⟨f.name, "must be at least " ++ toString mn⟩
          else
            match f.max with
            | some mx =>
                if num > (mx : ℚ) then
                  some ⟨f.name, "must be at most " ++ toString mx⟩
                else none
            | none => none
      | none =>
          match f.max with
          | some mx =>
              if num > (mx : ℚ) then
                some ⟨f.name, "must be at most " ++ toString mx⟩
              else none
          | none => none

/-- Validator.validateBoolean (validation part_008, lines 191 to 201). -/
def validateBoolean (f : Field) (v : Value) : Option VError :=
  match v with
  | .bool _ => none
  | _ => some ⟨f.name, "must be a boolean"⟩

/-- Validator.validateEmail (validation part_008, lines 203 to 222); the
Go code discards the MatchString error, so a non-compiling engine behaves
as a non-match. -/
def validateEmail (re : RegexEngine) (f : Field) (v : Value) : Option VError :=
  match v with
  | .str s =>
      if (re.runMatch emailPattern s).getD false then none
      else some ⟨f.name, "must be a valid email address"⟩
  | _ => some ⟨f.name, "must be a string"⟩

/-- Validator.validateURL (validation part_008, lines 224 to 243). -/
def validateURL (re : RegexEngine) (f : Field) (v : Value) : Option VError :=
  match v with
  | .str s =>
      if (re.runMatch urlPattern s).getD false then none
      else some ⟨f.name, "must be a valid URL"⟩
  | _ => some ⟨f.name, "must be a string"⟩

/-- Validator.validateEnum (validation part_008, lines 245 to 264). -/
def validateEnum (f : Field) (v : Value) : Option VError :=
  match v with
  | .str s =>
      if f.options.contains s then none
      else some ⟨f.name, "must be one of: " ++ String.intercalate ", " f.options⟩
  | _ => some ⟨f.name, "must be a string"⟩

/-- Validator.validateDatetime (validation part_008, lines 266 to 276). -/
def validateDatetime (f : Field) (v : Value) : Option VError :=
  match v with
  | .str _ => none
  | _ => some ⟨f.name, "must be a string"⟩

/-- Validator.validateField (validation part_008, lines 81 to 113): a nil
value short-circuits on the nullable and required flags before any
type-specific dispatch; otherwise dispatch is keyed on the field type,
with every type outside the listed families accepted unchecked. -/
def validateField (re : RegexEngine) (f : Field) (v : Value) : Option VError :=
  match v with
  | .null =>
      if f.nullable then none
      else if f.required then some ⟨f.name, "field is required"⟩
      else none
  | v =>
      match f.type with
      | .text | .password => validateText re f v
      | .number => validateNumber f v
      | .boolean => validateBoolean f v
      | .email => validateEmail re f v
      | .url => validateURL re f v
      | .enum => validateEnum f v
      | .datetime | .date | .time => validateDatetime f v
      | _ => none

/-- Field loop of Validator.ValidateCreate (validation part_008, lines 21
to 49): a field that is primary AND of the id type is skipped entirely; a
required absent field fails; a present field runs validateField.  The
first failure is returned. -/
def validateCreateFields (re : RegexEngine) : List Field → Payload → Option VError
  | [], _ => none
  | f :: rest, data =>
      if f.primary ∧ f.type = .id then validateCreateFields re rest data
      else
        match lookupKey data f.name with
        | none =>
            if f.required then some ⟨f.name, "field is required"⟩
            else validateCreateFields re rest data
        | some v =>
            match validateField re f v with
            | some e => some e
            | none => validateCreateFields re rest data

/-- Validator.ValidateCreate over a model found in the schema. -/
def ValidateCreate (re : RegexEngine) (m : Model) (data : Payload) : Option VError :=
  validateCreateFields re m.fields data

/-- Validator.getField (validation part_008, lines 278 to 285). -/
def getFieldIn (m : Model) (fieldName : String) : Option Field :=
  m.fields.find? fun f => f.name = fieldName

/-- Entry loop of Validator.ValidateUpdate (validation part_008, lines 51
to 79) over one iteration order of the payload map: an unknown key fails,
a key naming the primary field fails with the primary-key error, any other
key runs validateField; the first failure is returned. -/
def ValidateUpdate (re : RegexEngine) (m : Model) : Payload → Option VError
  | [] => none
  | (k, v) :: rest =>
      match getFieldIn m k with
      | none => some ⟨k, "field does not exist"⟩
      | some f =>
          if f.primary then some ⟨k, "cannot update primary key"⟩
          else
            match validateField re f v with
            | some e => some e
            | none => ValidateUpdate re m rest

/-!
Configuration validation (internal/parser, part_000).  ParseConfig reads
the file, unmarshals the YAML, runs validateConfig and returns a nil
config together with the error when validation fails, so no partially
validated configuration is ever exposed; the embedding covers the
validateConfig step, the only part the primary-key claim depends on.
-/

/-- Raw field configuration as unmarshalled from YAML (parser/types.go
FieldConfig); the field type is still an unchecked string here. -/
structure FieldConfig where
  type : String
  primary : Bool
  required : Bool
  unique : Bool
  min : Int
  max : Int
  pattern : String
  options : List String
  default : Option Value
  autoNow : Bool
  autoNowAdd : Bool
  nullable : Bool
  index : Bool
  toModel : String
  onDelete : String
  items : String

/-- Raw model configuration (parser/types.go ModelConfig); the Go field
map is an association list here, quantified over iteration orders. -/
structure ModelConfig where
  fields : List (String × FieldConfig)

/-- The slice of the application configuration read by validateConfig
(parser/types.go Config): the application name, the database settings and
the models.  Server and UI settings are not read by any embedded
function. -/
structure Config where
  appName : String
  databaseType : String
  databasePath : String
  databaseConnection : String
  models : List (String × ModelConfig)

/-- Valid field type strings (parser/types.go FieldType.IsValid). -/
def validFieldTypes : List String :=
  ["text", "number", "boolean", "datetime", "date", "time", "id", "email",
   "password", "phone", "url", "slug", "enum", "color", "file", "image",
   "markdown", "json", "array", "relation", "currency", "location", "ip",
   "uuid", "duration"]

/-- validateField of the parser (part_000, lines 83 to 106): type validity,
enum options, relation target, array element type and the min/max bound
check, each error naming model and field. -/
def validateFieldCfg (modelName fieldName : String) (f : FieldConfig) :
    Option String :=
  if ¬ validFieldTypes.contains f.type then
    some ("invalid field type \x27" ++ f.type ++ "\x27 for " ++ modelName ++
      "." ++ fieldName)
  else if f.type = "enum" ∧ f.options.length = 0 then
    some ("enum field " ++ modelName ++ "." ++ fieldName ++ " must have options")
  else if f.type = "relation" ∧ f.toModel = "" then
    some ("relation field " ++ modelName ++ "." ++ fieldName ++
      " must specify \x27to\x27 model")
  else if f.type = "array" ∧ f.items = "" then
    some ("array field " ++ modelName ++ "." ++ fieldName ++
      " must specify \x27items\x27 type")
  else if f.min > f.max ∧ f.max > 0 then
    some ("field " ++ modelName ++ "." ++ fieldName ++ " has min > max")
  else none

/-- Field loop of validateModel (part_000, lines 62 to 74): a second
primary field fails immediately, otherwise the field is validated and the
primary flag accumulated. -/
def validateModelLoop (name : String) :
    List (String × FieldConfig) → Bool → Option String
  | [], hasPrimary =>
      if hasPrimary then none
      else some ("model " ++ name ++ " has no primary key")
  | (fieldName, f) :: rest, hasPrimary =>
      if f.primary ∧ hasPrimary then
        some ("model " ++ name ++ " has multiple primary keys")
      else
        match validateFieldCfg name fieldName f with
        | some e => some e
        | none => validateModelLoop name rest (hasPrimary || f.primary)

/-- validateModel (parser part_000, lines 57 to 81). -/
def validateModel (name : String) (m : ModelConfig) : Option String :=
  if m.fields.length = 0 then some ("model " ++ name ++ " has no fields")
  else validateModelLoop name m.fields false

/-- Model loop of validateConfig (part_000, lines 48 to 52). -/
def validateModelsLoop : List (String × ModelConfig) → Option String
  | [] => none
  | (name, m) :: rest =>
      match validateModel name m with
      | some e => some e
      | none => validateModelsLoop rest

/-- validateConfig (parser part_000, lines 31 to 55): the application
name, database type and database location checks, then every model. -/
def validateConfig (c : Config) : Option String :=
  if c.appName = "" then some "app.name is required"
  else if c.databaseType ≠ "sqlite" ∧ c.databaseType ≠ "postgresql" ∧
      c.databaseType ≠ "mysql" then
    some ("unsupported database type: " ++ c.databaseType)
  else if c.databaseType = "sqlite" ∧ c.databasePath = "" then
    some "database.path is required for SQLite"
  else if c.databaseType ≠ "sqlite" ∧ c.databaseConnection = "" then
    some ("database.connection is required for " ++ c.databaseType)
  else validateModelsLoop c.models

/-- Number of fields of a model configuration flagged primary. -/
def primaryCount (m : ModelConfig) : Nat :=
  (m.fields.filter fun kv => kv.2.primary).length

/-!
DDL synthesis (database part_006): createTable, buildColumnDefinition,
getSQLiteType, formatDefaultValue, createIndexes, and the two-pass
CreateSchema orchestrator.
-/

/-- SQLiteDB.getSQLiteType (part_006, lines 138 to 168): column affinity
per field type, with the VARCHAR special case for bounded text-family
fields. -/
def getSQLiteType (f : Field) : String :=
  match f.type with
  | .id => "INTEGER"
  | .number => "INTEGER"
  | .text | .email | .password | .phone | .url | .slug | .enum | .color
  | .markdown | .json | .currency | .ip | .uuid | .duration =>
      match f.max with
      | some mx => if mx < 255 then "VARCHAR(" ++ toString mx ++ ")" else "TEXT"
      | none => "TEXT"
  | .boolean => "BOOLEAN"
  | .datetime | .date | .time => "DATETIME"
  | .file | .image => "TEXT"
  | .array => "TEXT"
  | .relation => "INTEGER"
  | .location => "TEXT"

/-- escapeSQL (database part_007, lines 253 to 255): single quotes are
doubled. -/
def escapeSQL (s : String) : String :=
  s.replace "\x27" "\x27\x27"

/-- SQLiteDB.formatDefaultValue (part_006, lines 170 to 188): the
CURRENT_TIMESTAMP sentinel passes through unquoted, strings are quoted
with escaping, numbers print verbatim, booleans become 0 or 1, and any
other value becomes NULL.  The float rendering is approximate (no claim
reads it). -/
def formatDefaultValue (v : Value) : String :=
  match v with
  | .str s =>
      if s = "CURRENT_TIMESTAMP" then "CURRENT_TIMESTAMP"
      else "\x27" ++ escapeSQL s ++ "\x27"
  | .int n => toString n
  | .float q => toString q
  | .bool b => if b then "1" else "0"
  | _ => "NULL"

/-- SQLiteDB.buildColumnDefinition (part_006, lines 108 to 136). -/
def buildColumnDefinition (f : Field) : String :=
  let parts0 := [quoteS f.name, getSQLiteType f]
  let parts1 := if f.primary then
      parts0 ++ [if f.type = .id then "PRIMARY KEY AUTOINCREMENT" else "PRIMARY KEY"]
    else parts0
  let parts2 := if f.required ∧ ¬ f.primary then parts1 ++ ["NOT NULL"] else parts1
  let parts3 := if f.unique ∧ ¬ f.primary then parts2 ++ ["UNIQUE"] else parts2
  let parts4 := match f.default with
    | some v => parts3 ++ ["DEFAULT " ++ formatDefaultValue v]
    | none => parts3
  String.intercalate " " parts4

/-- Foreign-key constraint emitted by createTable for a relation field
(part_006, lines 74 to 93). -/
def fkConstraint (f : Field) : String :=
  "FOREIGN KEY (" ++ quoteS f.name ++ ") REFERENCES " ++ quoteS f.relatedTo ++
    "(id)" ++
    (match f.onDelete with
     | "cascade" => " ON DELETE CASCADE"
     | "restrict" => " ON DELETE RESTRICT"
     | "set_null" => " ON DELETE SET NULL"
     | _ => "")

/-- SQLiteDB.createTable (part_006, lines 66 to 106): column definitions
in field order, then the relation constraints in field order, joined into
one CREATE TABLE IF NOT EXISTS statement. -/
def createTableSQL (name : String) (m : Model) : String :=
  let columns := m.fields.map buildColumnDefinition
  let constraints := m.fields.filterMap fun f =>
    if f.type = .relation ∧ f.relatedTo ≠ "" then some (fkConstraint f) else none
  "CREATE TABLE IF NOT EXISTS " ++ quoteS name ++ " (\n  " ++
    String.intercalate ",\n  " (columns ++ constraints) ++ "\n)"

/-- SQLiteDB.createIndexes (part_006, lines 190 to 208): one CREATE INDEX
IF NOT EXISTS statement per non-primary, non-unique field flagged index,
with the deterministic idx_model_field name. -/
def indexSQLs (modelName : String) (m : Model) : List String :=
  m.fields.filterMap fun f =>
    if f.index ∧ ¬ f.primary ∧ ¬ f.unique then
      some ("CREATE INDEX IF NOT EXISTS " ++
        quoteS ("idx_" ++ modelName ++ "_" ++ f.name) ++ " ON " ++
        quoteS modelName ++ " (" ++ quoteS f.name ++ ")")
    else none

/-- One DDL statement as issued by CreateSchema, tagged by the method that
produced it (createTable or createIndexes). -/
inductive DDLStmt where
  | createTable (sql : String) : DDLStmt
  | createIndex (sql : String) : DDLStmt

/-- Discriminator for table-creation statements. -/
def DDLStmt.isCreateTable : DDLStmt → Bool
  | .createTable _ => true
  | .createIndex _ => false

/-- Discriminator for index-creation statements. -/
def DDLStmt.isCreateIndex : DDLStmt → Bool
  | .createTable _ => false
  | .createIndex _ => true

/-- SQLiteDB.CreateSchema (part_006, lines 48 to 64) as the trace of DDL
statements it issues: a first full pass over the schema map creating every
table, then a second full pass creating every index.  The two Go range
loops may enumerate the map in different orders, so the two passes take
separate orderings of the models. -/
def createSchemaTrace (pass1 pass2 : List (String × Model)) : List DDLStmt :=
  (pass1.map fun nm => .createTable (createTableSQL nm.1 nm.2)) ++
    pass2.flatMap fun nm => (indexSQLs nm.1 nm.2).map .createIndex

/-!
Claim results.
-/

/-- C1, counterexample: compiling a SELECT whose filter carries the
unrecognized non-empty operator frob does NOT fail; the statement is built
successfully with the operator interpolated verbatim into the SQL text, so
it does reach the store. -/
theorem c1_counterexample :
    buildSelectQuery none "User"
        ⟨1, 0, [], [⟨"age", "frob", Value.int 5⟩], ""⟩ =
      some ("SELECT * FROM \"User\" WHERE \"age\" frob ? ORDER BY \"id\" DESC",
        [Value.int 5]) := by
  rfl

/-- C1, amended: compilation never fails on an unrecognized operator.  Any
non-empty operator other than like and in is interpolated verbatim between
the quoted field and a placeholder, with the value still bound as an
argument; only the empty operator is defaulted to equality, and rejection
of an invalid operator is left to the store. -/
theorem c1_theorem (f : Filter) (h1 : f.operator ≠ "") (h2 : f.operator ≠ "like")
    (h3 : f.operator ≠ "in") :
    buildWhereClause f =
      some (quoteS f.field ++ " " ++ f.operator ++ " ?", f.value) := by
  unfold buildWhereClause
  simp only [if_neg h1]

/-- C1, witness for the amended statement at the operator frob. -/
theorem c1_witness :
    buildWhereClause ⟨"age", "frob", Value.int 5⟩ =
      some (quoteS "age" ++ " " ++ "frob" ++ " ?", Value.int 5) :=
  c1_theorem ⟨"age", "frob", Value.int 5⟩ (by decide) (by decide) (by decide)

/-- C2: for every table state, every filter list and every page number,
Count over the filters agrees with the length of the Query result for the
parameters carrying the same filters, an unbounded page size of zero, no
sort fields and no search term.  Both statements are built over the same
WHERE-clause builder, so they are interpreted by the same row predicate;
with pageSize zero no LIMIT is emitted and ordering only permutes the
rows.  When a filter cannot compile or bind (the in operator), both
statements fail alike and neither side yields a result. -/
theorem c2_theorem (schema : Option Schema) (model : String) (table : List Row)
    (filters : List Filter) (page : Int) :
    evalCount table filters =
      (evalQuery schema model table ⟨page, 0, [], filters, ""⟩).map List.length := by
  unfold evalCount evalQuery
  cases hw : whereSem filters with
  | none => rfl
  | some p => simp [sortRows, List.length_mergeSort]

/-- Matcher that accepts everything, used to instantiate concrete checks;
the theorems themselves hold for every matcher. -/
def noRegex : RegexEngine := ⟨fun _ _ => some true⟩

/-- Model with a primary text field.  The parser accepts a primary flag on
any valid field type and processConfig then forces required and unique on
it, so such a model is a reachable schema member. -/
def primaryTextModel : Model :=
  ⟨"Doc",
   [⟨"code", .text, true, true, true, none, none, "", [], none,
     false, false, false, false, "", "", ""⟩],
   ⟨⟨[], [], []⟩, ⟨[]⟩⟩⟩

/-- C3, counterexample: on the model whose only field is a required
primary text field, create-validation of the empty payload fails — yet
every field of the model is primary, so no required non-primary field is
absent, and the empty payload has no present field that could fail a
type-specific predicate.  The claimed characterization with the
not-primary qualifier is therefore false: only primary fields of the id
type are exempt from the required check. -/
theorem c3_counterexample :
    ValidateCreate noRegex primaryTextModel [] =
        some ⟨"code", "field is required"⟩ ∧
      (primaryTextModel.fields.all fun f => f.primary) = true :=
  ⟨rfl, rfl⟩

/-- C3, amended: create-validation fails exactly when some field that is
not the auto-increment identifier (primary of type id) is required and
absent from the payload, or is present in the payload with a value failing
its per-field check; a present, well-formed field with no declared
constraints never causes a failure. -/
theorem c3_theorem (re : RegexEngine) (m : Model) (data : Payload) :
    ValidateCreate re m data ≠ none ↔
      ∃ f ∈ m.fields, ¬(f.primary = true ∧ f.type = FieldType.id) ∧
        ((f.required = true ∧ lookupKey data f.name = none) ∨
         (∃ v, lookupKey data f.name = some v ∧ validateField re f v ≠ none)) := by
  unfold ValidateCreate
  generalize m.fields = fs
  induction fs with
  | nil => simp [validateCreateFields]
  | cons f rest ih =>
      by_cases hskip : f.primary = true ∧ f.type = FieldType.id
      · simp [validateCreateFields, hskip, ih]
      · cases hl : lookupKey data f.name with
        | none =>
            by_cases hreq : f.required
            · constructor
              · intro _
                exact ⟨f, List.mem_cons_self f rest, hskip, Or.inl ⟨hreq, hl⟩⟩
              · intro _
                simp [validateCreateFields, hskip, hl, hreq]
            · simp [validateCreateFields, hskip, hl, hreq, ih]
        | some v =>
            cases hv : validateField re f v with
            | some e =>
                constructor
                · intro _
                  exact ⟨f, List.mem_cons_self f rest, hskip,
                    Or.inr ⟨v, hl, by simp [hv]⟩⟩
                · intro _
                  simp [validateCreateFields, hskip, hl, hv]
            | none => simp [validateCreateFields, hskip, hl, hv, ih]

/-- User model with an auto-increment primary id field and a required
name field, the shape of the concrete scenarios in the specification. -/
def userModel : Model :=
  ⟨"User",
   [⟨"id", .id, true, true, true, none, none, "", [], none,
     false, false, false, false, "", "", ""⟩,
    ⟨"name", .text, false, true, false, none, none, "", [], none,
     false, false, false, false, "", "", ""⟩],
   ⟨⟨["name"], ["name"], ["name"]⟩, ⟨["name"]⟩⟩⟩

/-- C4, counterexample: a payload containing the primary key id together
with an unknown key, enumerated with the unknown key first (one of the
iteration orders of the Go map), fails with the field-does-not-exist error
for the unknown key, not with the primary-key-update error — so the error
returned is NOT the primary-key error regardless of other payload
contents. -/
theorem c4_counterexample :
    ValidateUpdate noRegex userModel
        [("ghost", Value.str "x"), ("id", Value.int 1)] =
        some ⟨"ghost", "field does not exist"⟩ ∧
      ∀ k, ValidateUpdate noRegex userModel
          [("ghost", Value.str "x"), ("id", Value.int 1)] ≠
        some ⟨k, "cannot update primary key"⟩ := by
  refine ⟨rfl, ?_⟩
  intro k h
  have hx : (some ⟨"ghost", "field does not exist"⟩ : Option VError) =
      some ⟨k, "cannot update primary key"⟩ := h
  simp at hx

/-- C4, amended: update-validation of a payload containing the key of the
primary field always fails with some validation error, under every
iteration order of the payload map; and whenever every other entry of the
payload names an existing field that is not primary and passes its
per-field check, the error is the primary-key-update error. -/
theorem c4_theorem (re : RegexEngine) (m : Model) (data : Payload)
    (hp : ∃ kv ∈ data, ∃ f, getFieldIn m kv.1 = some f ∧ f.primary = true) :
    ValidateUpdate re m data ≠ none ∧
      ((∀ kv ∈ data, ∀ f, getFieldIn m kv.1 = some f → f.primary = false →
          validateField re f kv.2 = none) →
        (∀ kv ∈ data, getFieldIn m kv.1 ≠ none) →
        ∃ k, ValidateUpdate re m data = some ⟨k, "cannot update primary key"⟩) := by
  revert hp
  induction data with
  | nil =>
      intro hp
      obtain ⟨kv, hkv, _⟩ := hp
      cases hkv
  | cons kv rest ih =>
      obtain ⟨k, v⟩ := kv
      intro hp
      constructor
      · cases hg : getFieldIn m k with
        | none => simp [ValidateUpdate, hg]
        | some f =>
            by_cases hpf : f.primary = true
            · simp [ValidateUpdate, hg, hpf]
            · cases hv : validateField re f v with
              | some e => simp [ValidateUpdate, hg, hpf, hv]
              | none =>
                  have hrest : ∃ kv ∈ rest, ∃ f,
                      getFieldIn m kv.1 = some f ∧ f.primary = true := by
                    obtain ⟨kv0, hkv0, f0, hf0, hpf0⟩ := hp
                    cases hkv0 with
                    | head =>
                        have hef : f = f0 := Option.some.inj (hg.symm.trans hf0)
                        subst hef
                        exact absurd hpf0 hpf
                    | tail _ h0 => exact ⟨kv0, h0, f0, hf0, hpf0⟩
                  have hne := (ih hrest).1
                  simp [ValidateUpdate, hg, hpf, hv, hne]
      · intro hall hknown
        cases hg : getFieldIn m k with
        | none => exact absurd hg (hknown (k, v) (List.mem_cons_self _ _))
        | some f =>
            by_cases hpf : f.primary = true
            · exact ⟨k, by simp [ValidateUpdate, hg, hpf]⟩
            · have hv : validateField re f v = none :=
                hall (k, v) (List.mem_cons_self _ _) f hg (by simpa using hpf)
              have hrest : ∃ kv ∈ rest, ∃ f,
                  getFieldIn m kv.1 = some f ∧ f.primary = true := by
                obtain ⟨kv0, hkv0, f0, hf0, hpf0⟩ := hp
                cases hkv0 with
                | head =>
                    have hef : f = f0 := Option.some.inj (hg.symm.trans hf0)
                    subst hef
                    exact absurd hpf0 hpf
                | tail _ h0 => exact ⟨kv0, h0, f0, hf0, hpf0⟩
              obtain ⟨k2, hk2⟩ := (ih hrest).2
                (fun kv hkv => hall kv (List.mem_cons_of_mem _ hkv))
                (fun kv hkv => hknown kv (List.mem_cons_of_mem _ hkv))
              exact ⟨k2, by simp [ValidateUpdate, hg, hpf, hv, hk2]⟩

/-- C4, witness for the amended statement: the payload whose only entry is
the primary key id. -/
theorem c4_witness :
    ValidateUpdate noRegex userModel [("id", Value.int 7)] ≠ none ∧
      ((∀ kv ∈ [("id", Value.int 7)], ∀ f, getFieldIn userModel kv.1 = some f →
          f.primary = false → validateField noRegex f kv.2 = none) →
        (∀ kv ∈ [("id", Value.int 7)], getFieldIn userModel kv.1 ≠ none) →
        ∃ k, ValidateUpdate noRegex userModel [("id", Value.int 7)] =
          some ⟨k, "cannot update primary key"⟩) :=
  c4_theorem noRegex userModel [("id", Value.int 7)]
    ⟨("id", Value.int 7), List.mem_cons_self _ _,
     ⟨"id", .id, true, true, true, none, none, "", [], none,
      false, false, false, false, "", "", ""⟩, rfl, rfl⟩

/-- C5: for the in filter over the three-element list [1, 2, 3], the
compiled SELECT text contains exactly three placeholders, but the argument
list bound to the statement has length one — the whole Go slice is
appended as a single argument — so the statement does not bind one
argument per element as the claim states, and its execution fails at the
driver. -/
theorem c5_theorem :
    (buildSelectQuery none "User"
        ⟨1, 0, [],
          [⟨"id", "in", Value.list [Value.int 1, Value.int 2, Value.int 3]⟩],
          ""⟩).map
        (fun qa => (qa.1, countPlaceholders qa.1, qa.2.length)) =
      some ("SELECT * FROM \"User\" WHERE \"id\" IN (?,?,?) ORDER BY \"id\" DESC",
        3, 1) := by
  rfl

/-- C6: a nil value is accepted exactly when the field is nullable or not
required, and the outcome never depends on the field type — no
type-specific check runs on nil. -/
theorem c6_theorem (re : RegexEngine) (f : Field) (t : FieldType) :
    (validateField re f .null = none ↔ f.nullable = true ∨ f.required = false) ∧
    validateField re { f with type := t } .null = validateField re f .null := by
  constructor
  · unfold validateField
    by_cases hn : f.nullable <;> by_cases hr : f.required <;> simp [hn, hr]
  · rfl

/-- Helper: every error message produced by the field-level configuration
check embeds the model name. -/
theorem validateFieldCfg_some_names (modelName fieldName : String)
    (f : FieldConfig) (e : String)
    (h : validateFieldCfg modelName fieldName f = some e) :
    ∃ pre post, e = pre ++ modelName ++ post := by
  unfold validateFieldCfg at h
  split_ifs at h <;> rw [Option.some.injEq] at h <;> subst h
  · exact ⟨"enum field ", "." ++ fieldName ++ " must have options",
      by simp [String.append_assoc]⟩
  · exact ⟨"relation field ", "." ++ fieldName ++ " must specify \x27to\x27 model",
      by simp [String.append_assoc]⟩
  · exact ⟨"array field ", "." ++ fieldName ++ " must specify \x27items\x27 type",
      by simp [String.append_assoc]⟩
  · exact ⟨"field ", "." ++ fieldName ++ " has min > max",
      by simp [String.append_assoc]⟩
  · exact ⟨"invalid field type \x27" ++ f.type ++ "\x27 for ", "." ++ fieldName,
      by simp [String.append_assoc]⟩

/-- Helper: every error message produced by the model field loop embeds
the model name. -/
theorem validateModelLoop_some_names (name : String) :
    ∀ (fs : List (String × FieldConfig)) (b : Bool) (e : String),
      validateModelLoop name fs b = some e →
      ∃ pre post, e = pre ++ name ++ post := by
  intro fs
  induction fs with
  | nil =>
      intro b e h
      unfold validateModelLoop at h
      split_ifs at h
      rw [Option.some.injEq] at h
      subst h
      exact ⟨"model ", " has no primary key", rfl⟩
  | cons kv rest ih =>
      intro b e h
      obtain ⟨fieldName, f⟩ := kv
      unfold validateModelLoop at h
      split_ifs at h
      · rw [Option.some.injEq] at h
        subst h
        exact ⟨"model ", " has multiple primary keys", rfl⟩
      · cases hvf : validateFieldCfg name fieldName f with
        | some e0 =>
            rw [hvf, Option.some.injEq] at h
            subst h
            exact validateFieldCfg_some_names name fieldName f e0 hvf
        | none =>
            rw [hvf] at h
            exact ih _ e h

/-- Helper: every error message produced by validateModel embeds the model
name. -/
theorem validateModel_some_names (name : String) (m : ModelConfig) (e : String)
    (h : validateModel name m = some e) :
    ∃ pre post, e = pre ++ name ++ post := by
  unfold validateModel at h
  split_ifs at h
  · rw [Option.some.injEq] at h
    subst h
    exact ⟨"model ", " has no fields", rfl⟩
  · exact validateModelLoop_some_names name m.fields false e h

/-- Helper: when the model field loop accepts, the primary flags seen so
far plus the primary fields of the remaining list number exactly one. -/
theorem validateModelLoop_none_count (name : String) :
    ∀ (fs : List (String × FieldConfig)) (b : Bool),
      validateModelLoop name fs b = none →
      (fs.filter fun kv => kv.2.primary).length + (if b then 1 else 0) = 1 := by
  intro fs
  induction fs with
  | nil =>
      intro b h
      unfold validateModelLoop at h
      split_ifs at h with hb
      simp [hb]
  | cons kv rest ih =>
      intro b h
      obtain ⟨fieldName, f⟩ := kv
      unfold validateModelLoop at h
      split_ifs at h with hpb
      cases hvf : validateFieldCfg name fieldName f with
      | some e0 => rw [hvf] at h; cases h
      | none =>
          rw [hvf] at h
          have hrec := ih _ h
          cases hf : f.primary with
          | true =>
              have hb : b = false := by
                cases b with
                | false => rfl
                | true => exact absurd ⟨hf, rfl⟩ hpb
              subst hb
              rw [hf] at hrec
              simp at hrec
              simp [List.filter_cons, hf]
              exact hrec
          | false =>
              rw [hf] at hrec
              simp only [Bool.or_false] at hrec
              simp only [List.filter_cons, hf]
              simpa using hrec

/-- Helper: a model configuration that validateModel accepts has exactly
one primary field. -/
theorem validateModel_none_count (name : String) (m : ModelConfig)
    (h : validateModel name m = none) : primaryCount m = 1 := by
  unfold validateModel at h
  split_ifs at h
  have := validateModelLoop_none_count name m.fields false h
  unfold primaryCount
  simpa using this

/-- Helper: the model loop of validateConfig fails whenever any member
model fails its validation. -/
theorem validateModelsLoop_some (models : List (String × ModelConfig))
    (name : String) (m : ModelConfig) (hmem : (name, m) ∈ models)
    (hne : validateModel name m ≠ none) :
    ∃ e, validateModelsLoop models = some e := by
  induction models with
  | nil => cases hmem
  | cons kv rest ih =>
      obtain ⟨n0, m0⟩ := kv
      cases h0 : validateModel n0 m0 with
      | some e => exact ⟨e, by simp [validateModelsLoop, h0]⟩
      | none =>
          cases hmem with
          | head =>
              exact absurd h0 hne
          | tail _ h1 =>
              obtain ⟨e, he⟩ := ih h1
              exact ⟨e, by simp [validateModelsLoop, h0, he]⟩

/-- C7: a configuration in which some model declares zero primary fields
or at least two primary fields always fails validateConfig (so ParseConfig
returns the error and a nil configuration — no partially-built schema is
exposed), and the model-level validation error names the offending
model. -/
theorem c7_theorem (cfg : Config) (name : String) (m : ModelConfig)
    (hmem : (name, m) ∈ cfg.models)
    (hcount : primaryCount m = 0 ∨ 2 ≤ primaryCount m) :
    (∃ e, validateConfig cfg = some e) ∧
      ∃ e, validateModel name m = some e ∧ ∃ pre post, e = pre ++ name ++ post := by
  have hne : validateModel name m ≠ none := by
    intro h
    have hc := validateModel_none_count name m h
    rcases hcount with h0 | h2 <;> omega
  have hsome : ∃ e, validateModel name m = some e := by
    cases hv : validateModel name m with
    | none => exact absurd hv hne
    | some e => exact ⟨e, rfl⟩
  constructor
  · unfold validateConfig
    by_cases h1 : cfg.appName = ""
    · rw [if_pos h1]; exact ⟨_, rfl⟩
    · rw [if_neg h1]
      by_cases h2 : cfg.databaseType ≠ "sqlite" ∧ cfg.databaseType ≠ "postgresql" ∧
          cfg.databaseType ≠ "mysql"
      · rw [if_pos h2]; exact ⟨_, rfl⟩
      · rw [if_neg h2]
        by_cases h3 : cfg.databaseType = "sqlite" ∧ cfg.databasePath = ""
        · rw [if_pos h3]; exact ⟨_, rfl⟩
        · rw [if_neg h3]
          by_cases h4 : cfg.databaseType ≠ "sqlite" ∧ cfg.databaseConnection = ""
          · rw [if_pos h4]; exact ⟨_, rfl⟩
          · rw [if_neg h4]
            exact validateModelsLoop_some cfg.models name m hmem hne
  · obtain ⟨e, he⟩ := hsome
    exact ⟨e, he, validateModel_some_names name m e he⟩

/-- Field configuration flagged primary with the id type, as produced for
an identifier column. -/
def primaryIdFieldCfg : FieldConfig :=
  ⟨"id", true, true, true, 0, 0, "", [], none, false, false, false, false,
   "", "", ""⟩

/-- Model configuration declaring two primary fields. -/
def dupPrimaryModel : ModelConfig :=
  ⟨[("a", primaryIdFieldCfg), ("b", primaryIdFieldCfg)]⟩

/-- Configuration whose only model declares two primary fields. -/
def dupPrimaryConfig : Config :=
  ⟨"App", "sqlite", "./data.db", "", [("User", dupPrimaryModel)]⟩

/-- C7, witness at a configuration whose model declares two primary
fields. -/
theorem c7_witness :
    (∃ e, validateConfig dupPrimaryConfig = some e) ∧
      ∃ e, validateModel "User" dupPrimaryModel = some e ∧
        ∃ pre post, e = pre ++ "User" ++ post :=
  c7_theorem dupPrimaryConfig "User" dupPrimaryModel (List.mem_cons_self _ _)
    (Or.inr (by decide))

/-- Helper: a statement cannot be both a table creation and an index
creation. -/
theorem DDLStmt.not_table_and_index (s : DDLStmt) :
    ¬(s.isCreateTable = true ∧ s.isCreateIndex = true) := by
  cases s <;> simp [DDLStmt.isCreateTable, DDLStmt.isCreateIndex]

/-- C8: in the trace of DDL statements issued by CreateSchema — under any
pair of iteration orders for the two passes over the schema map — every
CREATE TABLE statement is executed strictly before every CREATE INDEX
statement: the two passes are never interleaved. -/
theorem c8_theorem (pass1 pass2 : List (String × Model)) (i j : Nat)
    (hi : i < (createSchemaTrace pass1 pass2).length)
    (hj : j < (createSchemaTrace pass1 pass2).length)
    (ht : ((createSchemaTrace pass1 pass2).get ⟨i, hi⟩).isCreateTable = true)
    (hx : ((createSchemaTrace pass1 pass2).get ⟨j, hj⟩).isCreateIndex = true) :
    i < j := by
  have hTtab : ∀ s ∈ pass1.map
      (fun nm => DDLStmt.createTable (createTableSQL nm.1 nm.2)),
      s.isCreateTable = true := by
    intro s hs
    obtain ⟨a, _, rfl⟩ := List.mem_map.mp hs
    rfl
  have hIidx : ∀ s ∈ pass2.flatMap
      (fun nm => (indexSQLs nm.1 nm.2).map DDLStmt.createIndex),
      s.isCreateIndex = true := by
    intro s hs
    obtain ⟨a, _, hsm⟩ := List.mem_flatMap.mp hs
    obtain ⟨q, _, rfl⟩ := List.mem_map.mp hsm
    rfl
  have hlen : (createSchemaTrace pass1 pass2).length =
      (pass1.map (fun nm => DDLStmt.createTable (createTableSQL nm.1 nm.2))).length +
      (pass2.flatMap (fun nm => (indexSQLs nm.1 nm.2).map DDLStmt.createIndex)).length :=
    List.length_append _ _
  have hiT : i < (pass1.map
      (fun nm => DDLStmt.createTable (createTableSQL nm.1 nm.2))).length := by
    by_contra hge
    push_neg at hge
    have hsub : i - (pass1.map
        (fun nm => DDLStmt.createTable (createTableSQL nm.1 nm.2))).length <
        (pass2.flatMap
          (fun nm => (indexSQLs nm.1 nm.2).map DDLStmt.createIndex)).length := by
      omega
    have he : (createSchemaTrace pass1 pass2).get ⟨i, hi⟩ =
        (pass2.flatMap (fun nm => (indexSQLs nm.1 nm.2).map DDLStmt.createIndex))[
          i - (pass1.map
            (fun nm => DDLStmt.createTable (createTableSQL nm.1 nm.2))).length] := by
      simp only [List.get_eq_getElem]
      exact List.getElem_append_right hge
    have hmem := List.getElem_mem hsub
    have hidx := hIidx _ hmem
    rw [he] at ht
    exact DDLStmt.not_table_and_index _ ⟨ht, hidx⟩
  have hjT : (pass1.map
      (fun nm => DDLStmt.createTable (createTableSQL nm.1 nm.2))).length ≤ j := by
    by_contra hlt
    push_neg at hlt
    have he : (createSchemaTrace pass1 pass2).get ⟨j, hj⟩ =
        (pass1.map (fun nm => DDLStmt.createTable (createTableSQL nm.1 nm.2)))[j] := by
      simp only [List.get_eq_getElem]
      exact List.getElem_append_left hlt
    have hmem := List.getElem_mem hlt
    have htab := hTtab _ hmem
    rw [he] at hx
    exact DDLStmt.not_table_and_index _ ⟨htab, hx⟩
  omega

/-- Model with an indexed relation field, so that CreateSchema issues both
a table statement and an index statement for it. -/
def indexedModel : Model :=
  ⟨"Post",
   [⟨"id", .id, true, true, true, none, none, "", [], none,
     false, false, false, false, "", "", ""⟩,
    ⟨"author", .relation, false, false, false, none, none, "", [], none,
     false, false, false, true, "User", "cascade", ""⟩],
   ⟨⟨[], [], []⟩, ⟨[]⟩⟩⟩

/-- C8, witness: on the one-model schema with an indexed field, the trace
holds the table statement at position zero and the index statement at
position one, and the theorem yields zero before one. -/
theorem c8_witness :
    ((createSchemaTrace [("Post", indexedModel)] [("Post", indexedModel)]).get
        ⟨0, by decide⟩).isCreateTable = true ∧
      ((createSchemaTrace [("Post", indexedModel)] [("Post", indexedModel)]).get
        ⟨1, by decide⟩).isCreateIndex = true ∧ 0 < 1 :=
  ⟨rfl, rfl,
   c8_theorem [("Post", indexedModel)] [("Post", indexedModel)] 0 1
     (by decide) (by decide) rfl rfl⟩

/-- C9: when no stored row matches the requested id, Update and Delete
still return success with the table unchanged — the affected-row count is
discarded, so a missing record is indistinguishable from a successful
mutation — while Get alone surfaces the distinguished no-rows error. -/
theorem c9_theorem (table : List Row) (idv : Value) (data : List (String × Value))
    (h : ∀ r ∈ table, sqlEq (rowGet r "id") idv = false) :
    goUpdate table idv data = .ok table ∧ goDelete table idv = .ok table ∧
      goGet table idv = .error "sql: no rows in result set" := by
  have hfil : (table.filter fun r => sqlEq (rowGet r "id") idv) = [] := by
    rw [List.filter_eq_nil_iff]
    intro r hr
    simp [h r hr]
  refine ⟨?_, ?_, ?_⟩
  · unfold goUpdate execUpdate
    have hmap : (table.map fun r =>
        if sqlEq (rowGet r "id") idv then applySet data r else r) = table := by
      have hc := List.map_congr_left (l := table)
        (f := fun r => if sqlEq (rowGet r "id") idv then applySet data r else r)
        (g := id) (fun r hr => by simp [h r hr])
      simpa using hc
    simp [hmap]
  · unfold goDelete execDelete
    have hkeep : (table.filter fun r => !sqlEq (rowGet r "id") idv) = table :=
      List.filter_eq_self.mpr fun r hr => by simp [h r hr]
    simp [hkeep]
  · unfold goGet
    rw [hfil]

/-- C9, witness at the empty table and id 1. -/
theorem c9_witness :
    goUpdate [] (Value.int 1) [] = .ok [] ∧ goDelete [] (Value.int 1) = .ok [] ∧
      goGet [] (Value.int 1) = .error "sql: no rows in result set" :=
  c9_theorem [] (Value.int 1) [] (by intro r hr; cases hr)

/-- C10: the SQLite identifier quoting returns exactly the three-part
concatenation quote, name, quote; every double-quote character embedded in
the input survives unescaped (the output contains exactly two more
double-quote characters than the input). -/
theorem c10_theorem (s : String) :
    DBquote "sqlite" s = "\"" ++ s ++ "\"" ∧
    (DBquote "sqlite" s).data.count '"' = s.data.count '"' + 2 := by
  refine ⟨rfl, ?_⟩
  have h : (DBquote "sqlite" s).data = '"' :: (s.data ++ ['"']) := rfl
  rw [h]
  simp [List.count_cons, List.count_append]

end Yamlforge
